import Mathlib

/-!
Shallow embedding of the `cajoo` place-search pipeline
(`app/api/search/route.ts` plus its helpers).

Coordinates are modelled as exact rationals (`ℚ`); provider HTTP calls are
modelled as oracle functions from the request string to an optional parsed
result list, where `none` stands for a network error, a non-OK status, or a
missing/empty `results` field of the JSON body.
-/

namespace Cajoo

/-- JavaScript `String.prototype.trim()`: strip leading and trailing
whitespace.  Defined over the character list so the kernel can evaluate it. -/
def jsTrim (s : String) : String :=
  String.mk
    (((s.data.dropWhile Char.isWhitespace).reverse.dropWhile
        Char.isWhitespace).reverse)

/-- JavaScript `String.prototype.toLowerCase()` on the ASCII fragment,
defined over the character list so the kernel can evaluate it. -/
def jsToLower (s : String) : String :=
  String.mk (s.data.map Char.toLower)

/-- Model of the JavaScript regex scan `text.match(/\*\*([^*]+)\*\*/g)`:
`takeNonStar cs` splits `cs` into its maximal leading run of characters
different from `*` and the remainder. -/
def takeNonStar : List Char → List Char × List Char
  | [] => ([], [])
  | c :: cs =>
    if c = '*' then ([], c :: cs)
    else
      let p := takeNonStar cs
      (c :: p.1, p.2)

/-- Fueled scanner for non-overlapping matches of the regex
`\*\*([^*]+)\*\*` over a character list, advancing one character on a failed
match attempt exactly as a regex engine does.  The fuel is the length of the
original string, which bounds the number of recursive calls. -/
def boldSpansAux : Nat → List Char → List (List Char)
  | 0, _ => []
  | _ + 1, [] => []
  | fuel + 1, c :: cs =>
    match c, cs with
    | '*', '*' :: cs2 =>
      let p := takeNonStar cs2
      match p.1, p.2 with
      | _ :: _, '*' :: '*' :: rest => p.1 :: boldSpansAux fuel rest
      | _, _ => boldSpansAux fuel cs
    | _, _ => boldSpansAux fuel cs

/-- All bold-delimited spans `**content**` of `text`, in order of occurrence
(the captured groups of `text.match(/\*\*([^*]+)\*\*/g)`, with the `**`
delimiters stripped as `match.replace(/\*\*/g, '')` does). -/
def boldSpans (text : String) : List String :=
  (boldSpansAux text.length text.data).map (fun l => String.mk l)

/-- The stop-word alternatives of the `genericWords` regex in
`isGenericText` (source line 162). -/
def genericWords : List String :=
  ["the", "and", "or", "in", "at", "on", "near", "best", "good", "great",
   "popular", "famous", "top", "here", "there", "this", "that", "where",
   "what", "how", "when", "why"]

/-- `isGenericText(text)`: the case-insensitive whole-string regex test
`/^(the|and|...|why)$/i.test(text.trim())`. -/
def isGenericText (text : String) : Bool :=
  genericWords.contains (jsToLower (jsTrim text))

/-- The acceptance test applied to each trimmed bold span in
`extractLocationsFromText`: `location.length > 2 && !isGenericText(location)`. -/
def keepLocation (location : String) : Bool :=
  location.length > 2 && !(isGenericText location)

/-- Insertion-order deduplication by exact string equality, as performed by
the JavaScript `Set<string>` accumulating the locations: an element is kept
exactly when it has not been seen before. -/
def dedupFirstAux (seen : List String) : List String → List String
  | [] => []
  | x :: xs =>
    if seen.contains x then dedupFirstAux seen xs
    else x :: dedupFirstAux (x :: seen) xs

/-- Deduplication keeping the first occurrence of each string. -/
def dedupFirst (l : List String) : List String :=
  dedupFirstAux [] l

/-- `extractLocationsFromText(text)` (source lines 136-158): collect the bold
spans, trim each, keep those passing `keepLocation`, deduplicate by exact
string equality in first-seen order, and cap the output at 10. -/
def extractLocationsFromText (text : String) : List String :=
  let spans := (boldSpans text).map jsTrim
  let kept := spans.filter keepLocation
  (dedupFirst kept).take 10

/-- A single entry of the `results` array of a Google Geocoding API
response: geometry, formatted address (the empty string models a missing
field, matching JavaScript falsiness of `undefined` and `''`), place id. -/
structure GeoResult where
  lat : ℚ
  lng : ℚ
  formatted_address : String
  place_id : String
deriving DecidableEq

/-- A single entry of the `results` array of a Google Places text-search
response; `rating` is `none` when the field is absent. -/
structure PlaceResult where
  lat : ℚ
  lng : ℚ
  formatted_address : String
  rating : Option ℚ
  place_id : String
deriving DecidableEq

/-- The `GeocodedPlace` interface of the route (source lines 77-84). -/
structure GeocodedPlace where
  name : String
  lat : ℚ
  lng : ℚ
  address : String
  rating : Option ℚ
  place_id : String
deriving DecidableEq

/-- Oracle for the two Google endpoints the resolver calls.  Each maps the
(decoded) request string to `none` (network error, non-OK status, or missing
or empty `results` array collapse to the same observable behaviour) or to
the parsed `results` array. -/
structure GeoEnv where
  geocode : String → Option (List GeoResult)
  textSearch : String → Option (List PlaceResult)

/-- `isInIndia(lat, lng)` (source lines 177-190): the fixed rectangular
bounding box with south 6.4 = 32/5, north 37.6 = 188/5, west 68.7 = 687/10,
east 97.25 = 389/4 (rational literals are written with `mkRat` so that the
kernel can evaluate them). -/
def isInIndia (lat lng : ℚ) : Bool :=
  mkRat 32 5 ≤ lat && lat ≤ mkRat 188 5 && mkRat 687 10 ≤ lng && lng ≤ mkRat 389 4

/-- `tryGeocoding(location, apiKey)` (source lines 193-226): on a parsed
response with at least one result, take the first; return it as a
`GeocodedPlace` only when its coordinates pass `isInIndia`, with
`name := location`, `address := result.formatted_address || location`,
`rating := null`.  Every failure path returns `none`. -/
def tryGeocoding (env : GeoEnv) (location : String) : Option GeocodedPlace :=
  match env.geocode location with
  | some (r :: _) =>
    if isInIndia r.lat r.lng then
      some { name := location, lat := r.lat, lng := r.lng,
             address := if r.formatted_address.isEmpty then location
                        else r.formatted_address,
             rating := none, place_id := r.place_id }
    else none
  | _ => none

/-- The query string `"${location} near ${userLat},${userLng}"` sent to the
Places text-search endpoint (URL percent-encoding is transport-level and not
modelled). -/
def placesQuery (location userLat userLng : String) : String :=
  location ++ " near " ++ userLat ++ "," ++ userLng

/-- `place.rating || null` of source line 251: a missing rating and a rating
of `0` (both falsy in JavaScript) become `null`. -/
def jsRatingOrNull (rating : Option ℚ) : Option ℚ :=
  match rating with
  | some x => if x = 0 then none else some x
  | none => none

/-- `tryPlacesSearch(location, userLat, userLng, apiKey)` (source lines
229-262): on a parsed response with at least one result, take the first;
return it only when its coordinates pass `isInIndia`, with
`name := location`, `address := place.formatted_address || ''`,
`rating := place.rating || null`.  Every failure path returns `none`. -/
def tryPlacesSearch (env : GeoEnv) (location userLat userLng : String) :
    Option GeocodedPlace :=
  match env.textSearch (placesQuery location userLat userLng) with
  | some (p :: _) =>
    if isInIndia p.lat p.lng then
      some { name := location, lat := p.lat, lng := p.lng,
             address := p.formatted_address,
             rating := jsRatingOrNull p.rating,
             place_id := p.place_id }
    else none
  | _ => none

/-- One outbound provider call performed by the route, recorded so that the
model can speak about which network requests the code attempts. -/
inductive Outbound where
  | reverseGeocode (lat lng : String)
  | completion
  | geocode (address : String)
  | textSearch (query : String)
deriving DecidableEq

/-- The loop state of `geocodePlaces`: the `processedLocations` set of
lowercase-trimmed keys, the `placesWithCoords` accumulator, and the trace of
outbound Google calls made so far. -/
structure ResolverState where
  processed : List String
  acc : List GeocodedPlace
  calls : List Outbound
deriving DecidableEq

/-- `location.toLowerCase().trim()`, the deduplication key of the resolver
loop (source line 102). -/
def jsKey (location : String) : String :=
  jsTrim (jsToLower location)

/-- The body of the inner `for (const location of locations)` loop of
`geocodePlaces` (source lines 101-129): skip when the key was already
processed or the location is shorter than 3 characters; otherwise record the
key, try the Geocoding API, and on failure fall back to the Places API,
appending whichever result arrives. -/
def resolveStep (env : GeoEnv) (userLat userLng : String)
    (st : ResolverState) (location : String) : ResolverState :=
  if st.processed.contains (jsKey location) || location.length < 3 then st
  else
    let processed := jsKey location :: st.processed
    match tryGeocoding env location with
    | some p => ⟨processed, st.acc ++ [p], st.calls ++ [Outbound.geocode location]⟩
    | none =>
      match tryPlacesSearch env location userLat userLng with
      | some p =>
        ⟨processed, st.acc ++ [p],
         st.calls ++ [Outbound.geocode location,
                      Outbound.textSearch (placesQuery location userLat userLng)]⟩
      | none =>
        ⟨processed, st.acc,
         st.calls ++ [Outbound.geocode location,
                      Outbound.textSearch (placesQuery location userLat userLng)]⟩

/-- The nested loops of `geocodePlaces` (source lines 94-130): fold over the
answers, extracting locations from each and resolving them in order against
a single shared `processedLocations` set. -/
def runResolver (env : GeoEnv) (userLat userLng : String)
    (searchResults : List String) : ResolverState :=
  searchResults.foldl
    (fun st result =>
      (extractLocationsFromText result).foldl (resolveStep env userLat userLng) st)
    ⟨[], [], []⟩

/-- `geocodePlaces(searchResults, userLat, userLng)` (source lines 87-132):
with no Google API key configured the function returns `[]` immediately;
otherwise it runs the resolution loops and returns the accumulated places. -/
def geocodePlaces (hasKey : Bool) (env : GeoEnv) (searchResults : List String)
    (userLat userLng : String) : List GeocodedPlace :=
  if !hasKey then []
  else (runResolver env userLat userLng searchResults).acc

/-- The outbound Google calls `geocodePlaces` performs: none without an API
key, otherwise the trace of the resolution loops. -/
def geocodeCalls (hasKey : Bool) (env : GeoEnv) (searchResults : List String)
    (userLat userLng : String) : List Outbound :=
  if !hasKey then []
  else (runResolver env userLat userLng searchResults).calls

/-- The JSON value a call to the route resolves to: either the 200 body
`{ results, places }` (both fields always present) or an error body
`{ error: message }` with its HTTP status. -/
inductive ApiResponse where
  | ok (results : List String) (places : List GeocodedPlace)
  | error (status : Nat) (message : String)
deriving DecidableEq

/-- JavaScript truthiness of a nullable string: `null`, `undefined` and the
empty string are falsy. -/
def truthy : Option String → Bool
  | some s => !s.isEmpty
  | none => false

/-- The whole observable input of one GET request to `app/api/search`
(source lines 264-343): the query parameters, the two environment
credentials, the completion-provider outcome (`perplexityOk` is the `ok`
flag of the fetch, with a thrown fetch modelled the same way since both
produce a 500, and `choices` the extracted message contents, `none` when the
field is missing), and the Google oracle. -/
structure RequestEnv where
  query : String
  lat : Option String
  lng : Option String
  perplexityKey : Option String
  googleKey : Option String
  perplexityOk : Bool
  choices : Option (List String)
  geo : GeoEnv

/-- The GET handler of `app/api/search/route.ts` (source lines 264-343),
returning the response together with the ordered trace of outbound calls it
performs: validate the query, check the Perplexity credential, reverse
geocode the coordinates when both are truthy, call the completion provider,
and geocode the answers when coordinates were supplied and answers exist. -/
def handleGET (env : RequestEnv) : ApiResponse × List Outbound :=
  if (jsTrim env.query).isEmpty then
    (ApiResponse.error 400 "No query provided.", [])
  else if !(truthy env.perplexityKey) then
    (ApiResponse.error 500 "Server configuration error.", [])
  else
    let hasCoords := truthy env.lat && truthy env.lng
    let preCalls :=
      if hasCoords then [Outbound.reverseGeocode (env.lat.getD "") (env.lng.getD "")]
      else []
    if !env.perplexityOk then
      (ApiResponse.error 500 "Failed to fetch results.",
       preCalls ++ [Outbound.completion])
    else
      let results := env.choices.getD []
      if hasCoords && results.length > 0 then
        (ApiResponse.ok results
          (geocodePlaces (truthy env.googleKey) env.geo results
            (env.lat.getD "") (env.lng.getD "")),
         preCalls ++ [Outbound.completion] ++
           geocodeCalls (truthy env.googleKey) env.geo results
             (env.lat.getD "") (env.lng.getD ""))
      else
        (ApiResponse.ok results [], preCalls ++ [Outbound.completion])

/-- Invariant of the resolver loop: every accumulated place has its key
recorded in `processedLocations`, the accumulated keys are pairwise
distinct, and every accumulated place passed the `isInIndia` check. -/
def stateInv (st : ResolverState) : Prop :=
  (∀ p ∈ st.acc, jsKey p.name ∈ st.processed) ∧
  st.acc.Pairwise (fun p q => jsKey p.name ≠ jsKey q.name) ∧
  (∀ p ∈ st.acc, isInIndia p.lat p.lng = true)

/-- Concrete in-region geocoding result used in witnesses: lat 18.5,
lng 73.8. -/
def rIn : GeoResult :=
  { lat := mkRat 37 2, lng := mkRat 369 5, formatted_address := "Addr",
    place_id := "pid1" }

/-- Concrete out-of-region geocoding result used in witnesses: lat 40,
lng 3 (Madrid, far west of the box). -/
def rOut : GeoResult :=
  { lat := mkRat 40 1, lng := mkRat 3 1, formatted_address := "Madrid",
    place_id := "pid2" }

/-- Concrete in-region place-search result used in witnesses: lat 18.6,
lng 74, rating 4.5. -/
def pIn : PlaceResult :=
  { lat := mkRat 93 5, lng := mkRat 370 5, formatted_address := "PAddr",
    rating := some (mkRat 9 2), place_id := "pid3" }

/-- Concrete in-region place-search result with a provider rating of 0. -/
def pZero : PlaceResult :=
  { lat := mkRat 93 5, lng := mkRat 370 5, formatted_address := "ZAddr",
    rating := some (mkRat 0 1), place_id := "pid4" }

/-- Oracle on which every provider call fails. -/
def geoNone : GeoEnv :=
  { geocode := fun _ => none, textSearch := fun _ => none }

/-- Oracle where candidate Alpha geocodes in-region and candidate Gotham
fails geocoding but is found in-region by the place search. -/
def envA : GeoEnv :=
  { geocode := fun a => if a = "Alpha" then some [rIn] else none,
    textSearch := fun q =>
      if q = placesQuery "Gotham" "1" "2" then some [pIn] else none }

/-- Oracle where candidate Gotham geocodes out of region but is found
in-region by the place search. -/
def envB : GeoEnv :=
  { geocode := fun a => if a = "Gotham" then some [rOut] else none,
    textSearch := fun q =>
      if q = placesQuery "Gotham" "1" "2" then some [pIn] else none }

/-- Oracle where two distinct candidates geocode in-region to the same
provider place id. -/
def envDup : GeoEnv :=
  { geocode := fun a =>
      if a = "Alpha" then
        some [{ lat := mkRat 37 2, lng := mkRat 369 5,
                formatted_address := "A1", place_id := "dup" }]
      else if a = "Beta" then
        some [{ lat := mkRat 19 1, lng := mkRat 74 1,
                formatted_address := "A2", place_id := "dup" }]
      else none,
    textSearch := fun _ => none }

/-- Oracle where candidate Zed is found by the place search with a provider
rating of 0. -/
def envZ : GeoEnv :=
  { geocode := fun _ => none,
    textSearch := fun q =>
      if q = placesQuery "Zed" "1" "2" then some [pZero] else none }

/-- The place `tryGeocoding envA "Alpha"` produces. -/
def pAlpha : GeocodedPlace :=
  { name := "Alpha", lat := mkRat 37 2, lng := mkRat 369 5, address := "Addr",
    rating := none, place_id := "pid1" }

/-- The place `tryPlacesSearch envA "Gotham" "1" "2"` produces. -/
def pGotham : GeocodedPlace :=
  { name := "Gotham", lat := mkRat 93 5, lng := mkRat 370 5,
    address := "PAddr", rating := some (mkRat 9 2), place_id := "pid3" }

/-- The place `tryPlacesSearch envZ "Zed" "1" "2"` produces: the provider
rating 0 is reported as `none`. -/
def pZed : GeocodedPlace :=
  { name := "Zed", lat := mkRat 93 5, lng := mkRat 370 5, address := "ZAddr",
    rating := none, place_id := "pid4" }

/-- Concrete request without coordinates, with credentials and a successful
completion. -/
def reqNoCoords : RequestEnv :=
  { query := "best coffee", lat := none, lng := none,
    perplexityKey := some "pk", googleKey := some "gk",
    perplexityOk := true, choices := some ["an answer"], geo := geoNone }

/-- Concrete request with a missing Perplexity credential. -/
def reqNoKey : RequestEnv :=
  { query := "best coffee", lat := some "1", lng := some "2",
    perplexityKey := none, googleKey := some "gk",
    perplexityOk := true, choices := some ["an answer"], geo := geoNone }

/-- Concrete request whose enrichment is fully broken: no Google credential
and an oracle on which every call fails. -/
def reqDegraded : RequestEnv :=
  { query := "best coffee", lat := some "1", lng := some "2",
    perplexityKey := some "pk", googleKey := none,
    perplexityOk := true, choices := some ["try **Cafe Bodega** now"],
    geo := geoNone }

/-- Everything `tryGeocoding` returns passes the bounds check, carries the
candidate string as its name, and has a null rating. -/
theorem tryGeocoding_some (env : GeoEnv) (location : String) (p : GeocodedPlace)
    (h : tryGeocoding env location = some p) :
    isInIndia p.lat p.lng = true ∧ p.name = location ∧ p.rating = none := by
  unfold tryGeocoding at h
  cases hg : env.geocode location with
  | none => rw [hg] at h; exact absurd h (by simp)
  | some l =>
    cases l with
    | nil => rw [hg] at h; exact absurd h (by simp)
    | cons r rs =>
      rw [hg] at h
      dsimp only at h
      by_cases hin : isInIndia r.lat r.lng = true
      · rw [if_pos hin] at h
        injection h with h
        subst h
        exact ⟨hin, rfl, rfl⟩
      · rw [if_neg hin] at h
        exact absurd h (by simp)

/-- Everything `tryPlacesSearch` returns passes the bounds check, carries
the candidate string as its name, and takes its rating from the first
provider result through `jsRatingOrNull`. -/
theorem tryPlacesSearch_some (env : GeoEnv) (location userLat userLng : String)
    (p : GeocodedPlace)
    (h : tryPlacesSearch env location userLat userLng = some p) :
    isInIndia p.lat p.lng = true ∧ p.name = location ∧
      ∃ r rs, env.textSearch (placesQuery location userLat userLng) = some (r :: rs) ∧
        p.rating = jsRatingOrNull r.rating := by
  unfold tryPlacesSearch at h
  cases hg : env.textSearch (placesQuery location userLat userLng) with
  | none => rw [hg] at h; exact absurd h (by simp)
  | some l =>
    cases l with
    | nil => rw [hg] at h; exact absurd h (by simp)
    | cons r rs =>
      rw [hg] at h
      dsimp only at h
      by_cases hin : isInIndia r.lat r.lng = true
      · rw [if_pos hin] at h
        injection h with h
        subst h
        exact ⟨hin, rfl, r, rs, rfl, rfl⟩
      · rw [if_neg hin] at h
        exact absurd h (by simp)

theorem stateInv_init : stateInv ⟨[], [], []⟩ :=
  ⟨by simp, by simp, by simp⟩

/-- Pushing an in-region place whose key is fresh preserves the invariant. -/
theorem stateInv_push (st : ResolverState) (p : GeocodedPlace) (l : String)
    (calls : List Outbound) (h : stateInv st)
    (hfresh : jsKey l ∉ st.processed)
    (hname : p.name = l) (hin : isInIndia p.lat p.lng = true) :
    stateInv ⟨jsKey l :: st.processed, st.acc ++ [p], calls⟩ := by
  obtain ⟨hmem, hpw, hind⟩ := h
  refine ⟨?_, ?_, ?_⟩
  · intro q hq
    rcases List.mem_append.mp hq with hq | hq
    · exact List.mem_cons_of_mem _ (hmem q hq)
    · rcases List.mem_singleton.mp hq with rfl
      rw [hname]
      exact List.mem_cons_self _ _
  · refine List.pairwise_append.mpr ⟨hpw, List.pairwise_singleton _ _, ?_⟩
    intro q hq q2 hq2
    rcases List.mem_singleton.mp hq2 with rfl
    rw [hname]
    intro heq
    exact hfresh (heq ▸ hmem q hq)
  · intro q hq
    rcases List.mem_append.mp hq with hq | hq
    · exact hind q hq
    · rcases List.mem_singleton.mp hq with rfl
      exact hin

theorem stateInv_resolveStep (env : GeoEnv) (userLat userLng : String)
    (st : ResolverState) (l : String) (h : stateInv st) :
    stateInv (resolveStep env userLat userLng st l) := by
  unfold resolveStep
  split
  · exact h
  · rename_i hskip
    have hfresh : jsKey l ∉ st.processed := by
      intro hc
      exact hskip (by
        rw [Bool.or_eq_true]
        exact Or.inl (List.elem_eq_true_of_mem hc))
    cases hg : tryGeocoding env l with
    | some p =>
      obtain ⟨hin, hname, _⟩ := tryGeocoding_some env l p hg
      exact stateInv_push st p l _ h hfresh hname hin
    | none =>
      cases hp : tryPlacesSearch env l userLat userLng with
      | some p =>
        obtain ⟨hin, hname, _⟩ := tryPlacesSearch_some env l userLat userLng p hp
        exact stateInv_push st p l _ h hfresh hname hin
      | none =>
        obtain ⟨hmem, hpw, hind⟩ := h
        exact ⟨fun q hq => List.mem_cons_of_mem _ (hmem q hq), hpw, hind⟩

theorem stateInv_foldl (f : ResolverState → String → ResolverState)
    (hf : ∀ st x, stateInv st → stateInv (f st x)) :
    ∀ (l : List String) (st : ResolverState), stateInv st →
      stateInv (List.foldl f st l) := by
  intro l
  induction l with
  | nil => intro st h; exact h
  | cons x xs ih => intro st h; exact ih _ (hf st x h)

theorem stateInv_runResolver (env : GeoEnv) (userLat userLng : String)
    (searchResults : List String) :
    stateInv (runResolver env userLat userLng searchResults) := by
  unfold runResolver
  refine stateInv_foldl _ ?_ searchResults ⟨[], [], []⟩ stateInv_init
  intro st x hst
  exact stateInv_foldl _ (fun st2 l h2 => stateInv_resolveStep env userLat userLng st2 l h2)
    (extractLocationsFromText x) st hst



/-- The deduplicated list is a sublist of the input, so first-seen order is
preserved. -/
theorem dedupFirstAux_sublist :
    ∀ (l seen : List String), List.Sublist (dedupFirstAux seen l) l := by
  intro l
  induction l with
  | nil => intro seen; simp [dedupFirstAux]
  | cons x xs ih =>
    intro seen
    unfold dedupFirstAux
    split
    · exact (ih seen).cons x
    · exact (ih (x :: seen)).cons₂ x

/-- Elements produced by the deduplication were not seen before it started. -/
theorem mem_dedupFirstAux (y : String) :
    ∀ (l seen : List String), y ∈ dedupFirstAux seen l → y ∉ seen := by
  intro l
  induction l with
  | nil => intro seen h; simp [dedupFirstAux] at h
  | cons x xs ih =>
    intro seen h
    unfold dedupFirstAux at h
    split at h
    · exact ih seen h
    · rename_i hc
      rcases List.mem_cons.mp h with rfl | h2
      · intro hy
        exact hc (List.elem_eq_true_of_mem hy)
      · intro hy
        exact ih (x :: seen) h2 (List.mem_cons_of_mem _ hy)

/-- The deduplicated list contains no duplicates. -/
theorem dedupFirstAux_nodup :
    ∀ (l seen : List String), (dedupFirstAux seen l).Nodup := by
  intro l
  induction l with
  | nil => intro seen; simp [dedupFirstAux]
  | cons x xs ih =>
    intro seen
    unfold dedupFirstAux
    split
    · exact ih seen
    · refine List.nodup_cons.mpr ⟨?_, ih (x :: seen)⟩
      intro hx
      exact mem_dedupFirstAux x xs (x :: seen) hx (List.mem_cons_self _ _)

/-- Claim C3, counterexample: the extractor deduplicates by exact string
equality, not by lowercase-trimmed key, so the answer
`"**Cafe** **cafe**"` yields two candidates sharing the lowercase-trimmed
key `"cafe"`. -/
theorem c3_counterexample :
    extractLocationsFromText "**Cafe** **cafe**" = ["Cafe", "cafe"] ∧
    jsKey "Cafe" = jsKey "cafe" := by
  constructor
  · decide
  · decide

/-- Claim C3, amended: for every answer string, the extractor output
contains at most 10 candidates, no two output candidates are equal as exact
strings (case-insensitive deduplication happens later, in the resolver
loop), and candidates appear in first-seen order (the output is a sublist
of the trimmed accepted spans in occurrence order). -/
theorem c3_extractor_shape (text : String) :
    (extractLocationsFromText text).length ≤ 10 ∧
    (extractLocationsFromText text).Nodup ∧
    List.Sublist (extractLocationsFromText text)
      (((boldSpans text).map jsTrim).filter keepLocation) := by
  unfold extractLocationsFromText dedupFirst
  refine ⟨List.length_take_le 10 _, ?_, ?_⟩
  · exact (List.take_sublist 10 _).nodup (dedupFirstAux_nodup _ [])
  · exact (List.take_sublist 10 _).trans (dedupFirstAux_sublist _ [])

/-- Claim C4: the extractor rejects an emphasized span exactly when its
trimmed text has length at most 2 or case-insensitively equals a member of
the stop-word set as a whole string; concretely, the stop-word `"Best"` is
rejected while `"Best Biryani"` is accepted. -/
theorem c4_stopword_rejection :
    (∀ c : String,
        keepLocation (jsTrim c) = false ↔
          ((jsTrim c).length ≤ 2 ∨ isGenericText (jsTrim c) = true)) ∧
    keepLocation "Best" = false ∧ keepLocation "Best Biryani" = true ∧
    extractLocationsFromText "**Best** or **Best Biryani**" = ["Best Biryani"] := by
  refine ⟨?_, by decide, by decide, by decide⟩
  intro c
  unfold keepLocation
  cases h : isGenericText (jsTrim c) with
  | false => simp [h]
  | true => simp [h]

/-- Claim C1: for every candidate and every provider response, the resolver
never returns a `GeocodedPlace` whose coordinates fall outside the
configured bounding region (south 6.4, north 37.6, west 68.7, east 97.25);
any result outside it is discarded. -/
theorem c1_resolver_in_bounds (hasKey : Bool) (env : GeoEnv)
    (searchResults : List String) (userLat userLng : String)
    (p : GeocodedPlace)
    (hp : p ∈ geocodePlaces hasKey env searchResults userLat userLng) :
    isInIndia p.lat p.lng = true := by
  unfold geocodePlaces at hp
  split at hp
  · simp at hp
  · exact (stateInv_runResolver env userLat userLng searchResults).2.2 p hp

/-- Witness for C1 at a concrete environment and answer. -/
theorem c1_resolver_in_bounds_witness : isInIndia pAlpha.lat pAlpha.lng = true :=
  c1_resolver_in_bounds true envA ["**Alpha** and **Gotham**"] "1" "2" pAlpha
    (by decide)

/-- Claim C2, counterexample: candidate Gotham geocodes successfully but out
of region (`envB`), yet the place-search fallback is attempted (its call
appears in the trace) and even resolves the candidate, so the candidate is
not discarded entirely. -/
theorem c2_counterexample :
    geocodePlaces true envB ["**Gotham**"] "1" "2" = [pGotham] ∧
    geocodeCalls true envB ["**Gotham**"] "1" "2" =
      [Outbound.geocode "Gotham", Outbound.textSearch "Gotham near 1,2"] := by
  constructor
  · decide
  · decide

/-- Claim C2, amended: if the direct geocoding lookup succeeds but its
returned coordinates lie outside the bounding region, the geocoding result
is discarded (`tryGeocoding` yields nothing) and the place-search fallback
IS attempted for the candidate; if the fallback returns an in-region place,
the candidate resolves to it. -/
theorem c2_out_of_bounds_falls_back (env : GeoEnv) (userLat userLng : String)
    (st : ResolverState) (l : String) (r : GeoResult) (rs : List GeoResult)
    (hg : env.geocode l = some (r :: rs))
    (hout : isInIndia r.lat r.lng = false)
    (hfresh : st.processed.contains (jsKey l) = false)
    (hlen : 3 ≤ l.length) :
    tryGeocoding env l = none ∧
    ∀ p, tryPlacesSearch env l userLat userLng = some p →
      resolveStep env userLat userLng st l =
        ⟨jsKey l :: st.processed, st.acc ++ [p],
         st.calls ++ [Outbound.geocode l,
                      Outbound.textSearch (placesQuery l userLat userLng)]⟩ := by
  have hgeo : tryGeocoding env l = none := by
    unfold tryGeocoding
    rw [hg]
    dsimp only
    rw [if_neg (by simp [hout])]
  refine ⟨hgeo, ?_⟩
  intro p hp
  unfold resolveStep
  rw [if_neg (by
    simp only [hfresh, Bool.false_or, Bool.or_eq_true, decide_eq_true_eq, not_or]
    omega)]
  rw [hgeo, hp]

/-- Witness for the amended C2 at a concrete environment and state. -/
theorem c2_out_of_bounds_falls_back_witness :
    resolveStep envB "1" "2" ⟨[], [], []⟩ "Gotham" =
      ⟨[jsKey "Gotham"], [pGotham],
       [Outbound.geocode "Gotham", Outbound.textSearch "Gotham near 1,2"]⟩ := by
  have h := c2_out_of_bounds_falls_back envB "1" "2" ⟨[], [], []⟩ "Gotham" rOut []
    (by decide) (by decide) (by decide) (by decide)
  exact h.2 pGotham (by decide)

/-- Claim C5, counterexample: two distinct candidates resolve to records
sharing the provider id `"dup"`, so the places collection is not
deduplicated by provider identity. -/
theorem c5_counterexample :
    geocodePlaces true envDup ["**Alpha** **Beta**"] "1" "2" =
      [{ name := "Alpha", lat := mkRat 37 2, lng := mkRat 369 5,
         address := "A1", rating := none, place_id := "dup" },
       { name := "Beta", lat := mkRat 19 1, lng := mkRat 74 1,
         address := "A2", rating := none, place_id := "dup" }] := by
  decide

/-- Claim C5, amended: in every response, no two places of the resolved
collection share the same lowercase-trimmed candidate key (deduplication is
by candidate name key, not by provider identity). -/
theorem c5_key_dedup (hasKey : Bool) (env : GeoEnv)
    (searchResults : List String) (userLat userLng : String) :
    (geocodePlaces hasKey env searchResults userLat userLng).Pairwise
      (fun p q => jsKey p.name ≠ jsKey q.name) := by
  unfold geocodePlaces
  split
  · simp
  · exact (stateInv_runResolver env userLat userLng searchResults).2.1

/-- Claim C6: for every non-empty query submitted without both coordinates,
a successful response carries a places field that is present and equal to
the empty array. -/
theorem c6_no_coords_places_empty (env : RequestEnv)
    (hq : (jsTrim env.query).isEmpty = false)
    (hkey : truthy env.perplexityKey = true)
    (hok : env.perplexityOk = true)
    (hcoords : (truthy env.lat && truthy env.lng) = false) :
    (handleGET env).1 = ApiResponse.ok (env.choices.getD []) [] := by
  unfold handleGET
  simp [hq, hkey, hok, hcoords]

/-- Witness for C6 at a concrete request without coordinates. -/
theorem c6_no_coords_places_empty_witness :
    (handleGET reqNoCoords).1 = ApiResponse.ok ["an answer"] [] :=
  c6_no_coords_places_empty reqNoCoords (by decide) (by decide) rfl (by decide)

/-- Claim C7: with a non-empty query and a missing Perplexity credential,
the route answers 500 with exactly "Server configuration error." and
performs no outbound call at all, in particular no reverse geocoding. -/
theorem c7_config_error_no_calls (env : RequestEnv)
    (hq : (jsTrim env.query).isEmpty = false)
    (hkey : truthy env.perplexityKey = false) :
    handleGET env = (ApiResponse.error 500 "Server configuration error.", []) := by
  unfold handleGET
  simp [hq, hkey]

/-- Witness for C7 at a concrete request with no credential. -/
theorem c7_config_error_no_calls_witness :
    handleGET reqNoKey = (ApiResponse.error 500 "Server configuration error.", []) :=
  c7_config_error_no_calls reqNoKey (by decide) (by decide)

/-- Claim C8: the route aborts exactly on input validation failure, missing
completion credential, or completion failure; otherwise it succeeds with
all text answers and some (possibly empty) places collection, regardless of
the geocoding oracle; and with no Google credential the places collection
is empty rather than the request failing. -/
theorem c8_graceful_degradation (env : RequestEnv) :
    ((∃ s m, (handleGET env).1 = ApiResponse.error s m) ↔
      ((jsTrim env.query).isEmpty = true ∨ truthy env.perplexityKey = false ∨
        env.perplexityOk = false)) ∧
    ((jsTrim env.query).isEmpty = false → truthy env.perplexityKey = true →
      env.perplexityOk = true →
      ∃ places, (handleGET env).1 = ApiResponse.ok (env.choices.getD []) places) ∧
    (truthy env.googleKey = false →
      ∀ results places, (handleGET env).1 = ApiResponse.ok results places →
        places = []) := by
  by_cases hq : (jsTrim env.query).isEmpty = true
  · refine ⟨?_, ?_, ?_⟩
    · simp [handleGET, hq]
    · intro hq2; rw [hq] at hq2; exact absurd hq2 (by simp)
    · intro _ results places hok2
      rw [show (handleGET env).1 = ApiResponse.error 400 "No query provided." by
        simp [handleGET, hq]] at hok2
      exact absurd hok2 (by simp)
  · rw [Bool.not_eq_true] at hq
    by_cases hkey : truthy env.perplexityKey = true
    · by_cases hok : env.perplexityOk = true
      · refine ⟨?_, ?_, ?_⟩
        · constructor
          · intro ⟨s, m, hsm⟩
            unfold handleGET at hsm
            rw [hq] at hsm
            simp [hkey, hok] at hsm
            split at hsm <;> exact absurd hsm (by simp)
          · intro h
            rcases h with h | h | h
            · rw [hq] at h; exact absurd h (by simp)
            · rw [hkey] at h; exact absurd h (by simp)
            · rw [hok] at h; exact absurd h (by simp)
        · intro _ _ _
          unfold handleGET
          rw [hq]
          simp only [Bool.false_eq_true, if_false, hkey, Bool.not_true, hok]
          split
          · exact ⟨_, rfl⟩
          · exact ⟨_, rfl⟩
        · intro hgk results places hresp
          unfold handleGET at hresp
          rw [hq] at hresp
          simp only [Bool.false_eq_true, if_false, hkey, Bool.not_true, hok] at hresp
          split at hresp
          · rw [hgk] at hresp
            injection hresp with h1 h2
            rw [← h2]
            simp [geocodePlaces]
          · injection hresp with h1 h2
            exact h2.symm
      · rw [Bool.not_eq_true] at hok
        refine ⟨?_, ?_, ?_⟩
        · simp [handleGET, hq, hkey, hok]
        · intro _ _ hok2; rw [hok] at hok2; exact absurd hok2 (by simp)
        · intro _ results places hresp
          rw [show (handleGET env).1 = ApiResponse.error 500 "Failed to fetch results." by
            simp [handleGET, hq, hkey, hok]] at hresp
          exact absurd hresp (by simp)
    · rw [Bool.not_eq_true] at hkey
      refine ⟨?_, ?_, ?_⟩
      · simp [handleGET, hq, hkey]
      · intro _ hkey2 _; rw [hkey] at hkey2; exact absurd hkey2 (by simp)
      · intro _ results places hresp
        rw [show (handleGET env).1 = ApiResponse.error 500 "Server configuration error." by
          simp [handleGET, hq, hkey]] at hresp
        exact absurd hresp (by simp)

/-- Witness for C8 at a concrete request whose enrichment is fully broken:
the response still succeeds with the text answer and an empty places
collection. -/
theorem c8_graceful_degradation_witness :
    (handleGET reqDegraded).1 = ApiResponse.ok ["try **Cafe Bodega** now"] [] := by
  obtain ⟨places, hpl⟩ :=
    (c8_graceful_degradation reqDegraded).2.1 (by decide) (by decide) rfl
  have hempty := (c8_graceful_degradation reqDegraded).2.2 (by decide) _ _ hpl
  rw [hpl, hempty]
  rfl

/-- Claim C9: a resolved place carries the extracted candidate string
verbatim as its name, never the provider's canonical name, on both the
geocoding and the place-search paths. -/
theorem c9_name_verbatim (env : GeoEnv) (location userLat userLng : String)
    (p : GeocodedPlace) :
    (tryGeocoding env location = some p → p.name = location) ∧
    (tryPlacesSearch env location userLat userLng = some p → p.name = location) :=
  ⟨fun h => (tryGeocoding_some env location p h).2.1,
   fun h => (tryPlacesSearch_some env location userLat userLng p h).2.1⟩

/-- Witness for C9 on both paths at concrete environments. -/
theorem c9_name_verbatim_witness : pAlpha.name = "Alpha" ∧ pGotham.name = "Gotham" :=
  ⟨(c9_name_verbatim envA "Alpha" "1" "2" pAlpha).1 (by decide),
   (c9_name_verbatim envA "Gotham" "1" "2" pGotham).2 (by decide)⟩

/-- Claim C10: a place resolved through the geocoding path always has a
null rating; a place resolved through the place-search path takes its
rating from the first provider result with JavaScript falsiness, so a
missing rating and a provider rating of 0 are both reported as null, and a
non-null rating always equals a non-zero provider rating.  Concretely, the
provider rating 0 of `envZ` is reported as null. -/
theorem c10_rating_policy (env : GeoEnv) (location userLat userLng : String)
    (p : GeocodedPlace) :
    (tryGeocoding env location = some p → p.rating = none) ∧
    (tryPlacesSearch env location userLat userLng = some p →
      ∃ r rs,
        env.textSearch (placesQuery location userLat userLng) = some (r :: rs) ∧
        p.rating = jsRatingOrNull r.rating ∧
        (r.rating = some 0 → p.rating = none) ∧
        ∀ x, p.rating = some x → r.rating = some x ∧ x ≠ 0) ∧
    tryPlacesSearch envZ "Zed" "1" "2" = some pZed := by
  refine ⟨?_, ?_, by decide⟩
  · intro h
    exact (tryGeocoding_some env location p h).2.2
  · intro h
    obtain ⟨-, -, r, rs, hts, hr⟩ := tryPlacesSearch_some env location userLat userLng p h
    refine ⟨r, rs, hts, hr, ?_, ?_⟩
    · intro h0
      rw [hr, h0]
      simp [jsRatingOrNull]
    · intro x hx
      rw [hr] at hx
      unfold jsRatingOrNull at hx
      cases hrr : r.rating with
      | none => rw [hrr] at hx; exact absurd hx (by simp)
      | some y =>
        rw [hrr] at hx
        dsimp only at hx
        by_cases hy : y = 0
        · rw [if_pos hy] at hx; exact absurd hx (by simp)
        · rw [if_neg hy] at hx
          injection hx with hx
          subst hx
          exact ⟨rfl, hy⟩

/-- Witness for C10 on the geocoding path at a concrete environment. -/
theorem c10_rating_policy_witness : pAlpha.rating = none :=
  (c10_rating_policy envA "Alpha" "1" "2" pAlpha).1 (by decide)

end Cajoo
